import Mathlib

/-!
Verification of the priceaction trading bot's core logic.

The development shallowly embeds, over exact rationals:
* the indicator engine used by `src/strategy.py` (EMA / RSI / crossover columns),
* `PriceActionStrategy.generate_signal`, `calculate_position_size` and
  `calculate_stop_loss_take_profit` from `src/strategy.py`,
* the per-pair execution state machine of `src/multi_pair_trading_service.py`
  (`_execute_buy`, `_execute_sell`, `_check_risk_management` and the signal
  dispatch in `check_and_execute_signal_for_pair`).

The pandas DataFrame carries OHLCV columns, but the strategy reads only the
`close` column, so a candle series is embedded as its list of closes.
A missing value (pandas NaN) is embedded as `Option.none`; comparisons against
a missing value are false, matching Python float-NaN comparison semantics.
-/

/-- Strict less-than on possibly-missing values: false whenever either side is
missing, matching pandas/NumPy NaN comparison semantics. -/
def optLtQ : Option ℚ → Option ℚ → Bool
  | some a, some b => decide (a < b)
  | _, _ => false

/-- Non-strict comparison on possibly-missing values, false when a side is missing. -/
def optLeQ : Option ℚ → Option ℚ → Bool
  | some a, some b => decide (a ≤ b)
  | _, _ => false

/-- `a < c` for a possibly-missing `a` and a present threshold `c`. -/
def optLtC (a : Option ℚ) (c : ℚ) : Bool := optLtQ a (some c)

/-- `a > c` for a possibly-missing `a` and a present threshold `c`. -/
def optGtC (a : Option ℚ) (c : ℚ) : Bool := optLtQ (some c) a

/-- `abs a > c` for a possibly-missing `a`, false when `a` is missing. -/
def optAbsGtC (a : Option ℚ) (c : ℚ) : Bool :=
  match a with
  | some x => decide (c < |x|)
  | none => false

/-- Modelled from the spec: the EMA computed by the external ta-library
`EMAIndicator` called at src/strategy.py lines 63-66 (the library itself is not
part of this repository). Spec section 4.1: EMA(w) at index i is seeded by the
simple average of the first w closes, then follows the recurrence
`ema[i] = close[i]*k + ema[i-1]*(1-k)` with `k = 2/(w+1)`; it is undefined for
indices `< w-1` (and outside the series). -/
def emaAt (w : ℕ) (closes : List ℚ) : ℕ → Option ℚ
  | 0 =>
    if w = 1 ∧ 1 ≤ closes.length then some ((closes.take 1).sum / 1) else none
  | i + 1 =>
    if closes.length ≤ i + 1 ∨ w = 0 then none
    else if i + 2 < w then none
    else if i + 2 = w then some ((closes.take w).sum / (w : ℚ))
    else
      match closes[i + 1]? with
      | some c =>
          (emaAt w closes i).map
            (fun prev => c * (2 / ((w : ℚ) + 1)) + prev * (1 - 2 / ((w : ℚ) + 1)))
      | none => none

/-- One-period differences of a close series: entry `j` holds `close[j+1] - close[j]`. -/
def closeDiffs (closes : List ℚ) : List ℚ :=
  List.zipWith (fun a b => a - b) (closes.drop 1) closes

/-- Per-period gains of a close series (negative moves clipped to zero). -/
def closeGains (closes : List ℚ) : List ℚ :=
  (closeDiffs closes).map (fun d => max d 0)

/-- Per-period losses of a close series (positive moves clipped to zero). -/
def closeLosses (closes : List ℚ) : List ℚ :=
  (closeDiffs closes).map (fun d => max (-d) 0)

/-- Modelled from the spec: Wilder's smoothed average over window `w`, used by
the external ta-library `RSIIndicator` called at src/strategy.py lines 69-70.
`xs` holds one value per period, the value for period `j` at `xs[j-1]`.
At candle index `w` it is the simple average of the first `w` period values,
afterwards `avg[i] = (avg[i-1]*(w-1) + x[i]) / w`; undefined before index `w`. -/
def wilderAvg (w : ℕ) (xs : List ℚ) : ℕ → Option ℚ
  | 0 => none
  | i + 1 =>
    if xs.length < i + 1 ∨ w = 0 then none
    else if i + 1 < w then none
    else if i + 1 = w then some ((xs.take w).sum / (w : ℚ))
    else
      match xs[i]? with
      | some x =>
          (wilderAvg w xs i).map (fun prev => (prev * ((w : ℚ) - 1) + x) / (w : ℚ))
      | none => none

/-- Modelled from the spec: RSI over window `w` (spec section 4.2): Wilder's
smoothed averages of gains and losses, `RSI = 100 - 100/(1+RS)` with
`RS = avg_gain/avg_loss`, and `RSI = 100` when the average loss is zero. -/
def rsiAt (w : ℕ) (closes : List ℚ) (i : ℕ) : Option ℚ :=
  match wilderAvg w (closeGains closes) i, wilderAvg w (closeLosses closes) i with
  | some g, some l => some (if l = 0 then (100 : ℚ) else 100 - 100 / (1 + g / l))
  | _, _ => none

/-- The `ema_diff` column of src/strategy.py line 73:
`(ema_fast - ema_slow) / ema_slow * 100`, missing when either EMA is missing. -/
def emaDiffAt (fast slow : ℕ) (closes : List ℚ) (i : ℕ) : Option ℚ :=
  match emaAt fast closes i, emaAt slow closes i with
  | some f, some s => some ((f - s) / s * 100)
  | _, _ => none

/-- The `ema_cross_up` column of src/strategy.py lines 76-79:
fast above slow at index `i` and fast at or below slow at index `i-1`
(false at index 0, where the shifted values are missing). -/
def emaCrossUpAt (fast slow : ℕ) (closes : List ℚ) : ℕ → Bool
  | 0 => false
  | i + 1 =>
    optLtQ (emaAt slow closes (i + 1)) (emaAt fast closes (i + 1)) &&
    optLeQ (emaAt fast closes i) (emaAt slow closes i)

/-- The `ema_cross_down` column of src/strategy.py lines 80-83:
fast below slow at index `i` and fast at or above slow at index `i-1`
(false at index 0, where the shifted values are missing). -/
def emaCrossDownAt (fast slow : ℕ) (closes : List ℚ) : ℕ → Bool
  | 0 => false
  | i + 1 =>
    optLtQ (emaAt fast closes (i + 1)) (emaAt slow closes (i + 1)) &&
    optLeQ (emaAt slow closes i) (emaAt fast closes i)

/-- The `Signal` enum of src/strategy.py lines 16-20. -/
inductive Signal
  | BUY
  | SELL
  | HOLD
deriving DecidableEq, Repr

/-- The `info` dictionary returned by `generate_signal` (src/strategy.py lines
113-119): price and latest indicator values plus a reason code. A key absent
from the Python dict is embedded as `none`. -/
structure SignalInfo where
  price : Option ℚ := none
  ema_fast : Option ℚ := none
  ema_slow : Option ℚ := none
  rsi : Option ℚ := none
  ema_diff : Option ℚ := none
  reason : String := ""
deriving DecidableEq, Repr

/-- The strategy parameters of `PriceActionStrategy.__init__`
(src/strategy.py lines 31-43). The RSI thresholds are integers in the source;
they are embedded as rationals, which compare identically. -/
structure PriceActionStrategy where
  ema_fast : ℕ := 9
  ema_slow : ℕ := 21
  rsi_period : ℕ := 14
  rsi_overbought : ℚ := 70
  rsi_oversold : ℚ := 30
deriving DecidableEq, Repr

/-- `PriceActionStrategy.generate_signal` (src/strategy.py lines 87-145):
insufficient-data guard, then the exit check for a long position, then the
entry check when flat, otherwise HOLD. The indicator columns at the latest
index are computed by the indicator functions above. -/
def generate_signal (s : PriceActionStrategy) (closes : List ℚ)
    (position : Option String) : Signal × SignalInfo :=
  if closes.length < max s.ema_slow s.rsi_period + 1 then
    (Signal.HOLD, { reason := "insufficient_data" })
  else
    let i := closes.length - 1
    let currentClose := (closes[i]?).getD 0
    let currentEmaFast := emaAt s.ema_fast closes i
    let currentEmaSlow := emaAt s.ema_slow closes i
    let currentRsi := rsiAt s.rsi_period closes i
    let currentEmaDiff := emaDiffAt s.ema_fast s.ema_slow closes i
    let info : SignalInfo :=
      { price := some currentClose, ema_fast := currentEmaFast,
        ema_slow := currentEmaSlow, rsi := currentRsi,
        ema_diff := currentEmaDiff, reason := "" }
    if position = some "long" ∧
        (emaCrossDownAt s.ema_fast s.ema_slow closes i = true ∨
         optGtC currentRsi s.rsi_overbought = true) then
      (Signal.SELL, { info with reason := "exit_long_signal" })
    else if position = none ∧
        emaCrossUpAt s.ema_fast s.ema_slow closes i = true ∧
        optLtC currentRsi s.rsi_overbought = true ∧
        optGtC currentRsi s.rsi_oversold = true ∧
        optAbsGtC currentEmaDiff (1 / 10) = true ∧
        optLtQ currentEmaFast (some currentClose) = true ∧
        optLtQ currentEmaSlow currentEmaFast = true then
      (Signal.BUY, { info with reason := "bullish_crossover_confirmed" })
    else
      (Signal.HOLD, { info with reason := "no_signal" })

/-- `PriceActionStrategy.calculate_position_size` (src/strategy.py lines
147-186): risk amount, stop-loss based position value, clamp to the maximum
position value, then conversion to base-currency quantity. -/
def calculate_position_size (balance risk_per_trade stop_loss_percent
    max_position_size current_price : ℚ) : ℚ :=
  let risk_amount := balance * risk_per_trade
  let position_value := risk_amount / stop_loss_percent
  let max_position_value := balance * max_position_size
  let clamped_value := min position_value max_position_value
  let quantity := clamped_value / current_price
  quantity

/-- `PriceActionStrategy.calculate_stop_loss_take_profit` (src/strategy.py
lines 188-219). -/
def calculate_stop_loss_take_profit (entry_price : ℚ) (position_type : String)
    (stop_loss_percent take_profit_percent : ℚ) : ℚ × ℚ :=
  if position_type = "long" then
    (entry_price * (1 - stop_loss_percent), entry_price * (1 + take_profit_percent))
  else
    (entry_price * (1 + stop_loss_percent), entry_price * (1 - take_profit_percent))

/-- The dictionary returned by the exchange for a placed order; the services
only read its `id` key (`order.get('id')`). -/
structure OrderResult where
  id : Option String := none
deriving DecidableEq, Repr

/-- The exchange responses observed by one pair during one cycle: the fetched
USDT balance and the results of `create_market_order`,
`create_stop_loss_order` and `create_take_profit_order`; `none` models a
falsy/failed result. -/
structure ExchangeEnv where
  balance : ℚ := 0
  market_order : Option OrderResult := none
  sl_order : Option OrderResult := none
  tp_order : Option OrderResult := none
deriving DecidableEq, Repr

/-- The risk-management part of `Config` (src/config.py lines 29-43) used by
the trading services. -/
structure Config where
  RISK_PER_TRADE : ℚ := 1 / 100
  MAX_POSITION_SIZE : ℚ := 1 / 10
  STOP_LOSS_PERCENT : ℚ := 2 / 100
  TAKE_PROFIT_PERCENT : ℚ := 4 / 100
  DRY_RUN : Bool := true
deriving DecidableEq, Repr

/-- The position dictionary stored in `self.positions[symbol]`
(src/multi_pair_trading_service.py lines 176-184); `entry_time` is embedded as
an abstract timestamp. -/
structure Position where
  type : String
  entry_price : ℚ
  size : ℚ
  entry_time : ℕ
  order_id : Option String
  stop_loss : ℚ
  take_profit : ℚ
deriving DecidableEq, Repr

/-- The per-pair slice of the service state: `self.positions[symbol]`,
`self.stop_loss_orders[symbol]` and `self.take_profit_orders[symbol]`
(src/multi_pair_trading_service.py lines 54-56). -/
structure PairState where
  position : Option Position := none
  stop_loss_order : Option String := none
  take_profit_order : Option String := none
deriving DecidableEq, Repr

/-- The per-pair state created by `__init__`: no position, no protective orders. -/
def PairState.initial : PairState := {}

/-- Round half to even on rationals, as Python's `round` ties-to-even. -/
def pyRoundHalfEven (x : ℚ) : ℤ :=
  if x - ⌊x⌋ < 1 / 2 then ⌊x⌋
  else if 1 / 2 < x - ⌊x⌋ then ⌊x⌋ + 1
  else if ⌊x⌋ % 2 = 0 then ⌊x⌋ else ⌊x⌋ + 1

/-- Python's `round(x, 6)` used at src/multi_pair_trading_service.py line 133,
over exact rationals. -/
def roundTo6 (x : ℚ) : ℚ := (pyRoundHalfEven (x * 1000000) : ℚ) / 1000000

/-- `MultiPairTradingService._execute_buy` (src/multi_pair_trading_service.py
lines 107-200) restricted to its state effect on one pair. `symbols` is the
configured pair list `self.symbols`; `all_positions` holds the position of
every configured pair (the source computes `active_positions` from it at line
119 and never uses the value; `available_slots` is `len(self.symbols)`).
External effects (order placement, logging, Telegram) are summarised by `env`;
a caught exception leaves the state unchanged exactly like the early returns. -/
def execute_buy (cfg : Config) (symbols : List String)
    (all_positions : List (Option Position)) (env : ExchangeEnv) (now : ℕ)
    (price : ℚ) (st : PairState) : PairState :=
  let balance := env.balance
  if balance ≤ 0 then st
  else
    let active_positions := (all_positions.filter Option.isSome).length
    let available_slots := symbols.length
    let balance_per_pair := balance / (available_slots : ℚ)
    let position_size := calculate_position_size balance_per_pair
      cfg.RISK_PER_TRADE cfg.STOP_LOSS_PERCENT cfg.MAX_POSITION_SIZE price
    let rounded_size := roundTo6 position_size
    if rounded_size ≤ 0 then st
    else
      match env.market_order with
      | none => st
      | some order =>
        let sl_tp := calculate_stop_loss_take_profit price "long"
          cfg.STOP_LOSS_PERCENT cfg.TAKE_PROFIT_PERCENT
        { position := some
            { type := "long", entry_price := price, size := rounded_size,
              entry_time := now, order_id := order.id,
              stop_loss := sl_tp.1, take_profit := sl_tp.2 },
          stop_loss_order :=
            match env.sl_order with
            | some o => o.id
            | none => none,
          take_profit_order :=
            match env.tp_order with
            | some o => o.id
            | none => none }

/-- The realized-trade summary computed by `_execute_sell`
(src/multi_pair_trading_service.py lines 213-215). -/
structure SellRecord where
  pnl : ℚ
  pnl_percent : ℚ
deriving DecidableEq, Repr

/-- `MultiPairTradingService._execute_sell` (src/multi_pair_trading_service.py
lines 202-249): no position means nothing to close; a failed market sell
leaves the position untouched; a successful sell reports the realized P&L and
clears the position and protective-order ids. Cancelling outstanding orders in
live mode is an external effect with no service-state footprint. -/
def execute_sell (cfg : Config) (env : ExchangeEnv) (price : ℚ)
    (st : PairState) : PairState × Option SellRecord :=
  match st.position with
  | none => (st, none)
  | some pos =>
    let position_size := pos.size
    let entry_price := pos.entry_price
    let current_price := price
    let pnl := (current_price - entry_price) * position_size
    let pnl_percent := (current_price - entry_price) / entry_price * 100
    match env.market_order with
    | none => (st, none)
    | some _ =>
      ({ position := none, stop_loss_order := none, take_profit_order := none },
       some { pnl := pnl, pnl_percent := pnl_percent })

/-- `MultiPairTradingService._check_risk_management`
(src/multi_pair_trading_service.py lines 251-279): with no position it does
nothing; otherwise it fires the sell path when the price is at or below the
recorded stop loss, or at or above the recorded take profit, and only monitors
in between. -/
def check_risk_management (cfg : Config) (env : ExchangeEnv) (price : ℚ)
    (st : PairState) : PairState × Option SellRecord :=
  match st.position with
  | none => (st, none)
  | some pos =>
    if price ≤ pos.stop_loss then execute_sell cfg env price st
    else if pos.take_profit ≤ price then execute_sell cfg env price st
    else (st, none)

/-- The signal dispatch of `check_and_execute_signal_for_pair`
(src/multi_pair_trading_service.py lines 96-102): BUY executes a buy only when
the pair has no position, SELL executes a sell only when it has one, HOLD runs
the risk-management check. -/
def execute_signal (cfg : Config) (symbols : List String)
    (all_positions : List (Option Position)) (env : ExchangeEnv) (now : ℕ)
    (price : ℚ) (signal : Signal) (st : PairState) :
    PairState × Option SellRecord :=
  if signal = Signal.BUY ∧ st.position = none then
    (execute_buy cfg symbols all_positions env now price st, none)
  else if signal = Signal.SELL ∧ st.position ≠ none then
    execute_sell cfg env price st
  else if signal = Signal.HOLD then
    check_risk_management cfg env price st
  else
    (st, none)

/-- The inputs one pair observes during one polling cycle: the generated
signal, the exchange responses, the wall-clock timestamp, the latest price,
the configured pair list and the position map over all pairs. -/
structure CycleInput where
  signal : Signal
  env : ExchangeEnv
  now : ℕ
  price : ℚ
  symbols : List String
  all_positions : List (Option Position)
deriving Repr

/-- Iterated per-pair cycles: each cycle applies the signal dispatch of
`check_and_execute_signal_for_pair` to the pair's state. -/
def runCycles (cfg : Config) : List CycleInput → PairState → PairState
  | [], st => st
  | c :: cs, st =>
      runCycles cfg cs
        (execute_signal cfg c.symbols c.all_positions c.env c.now c.price
          c.signal st).1

/-- Every stored position has its stop loss strictly below the entry price and
its take profit strictly above it. -/
def PosInv (st : PairState) : Prop :=
  ∀ pos : Position, st.position = some pos →
    pos.stop_loss < pos.entry_price ∧ pos.entry_price < pos.take_profit

/-- A small concrete strategy used to instantiate the theorems: EMA windows 2/3,
RSI window 3, default thresholds 70/30. -/
def testStrategy : PriceActionStrategy :=
  { ema_fast := 2, ema_slow := 3, rsi_period := 3 }

/-- Default configuration values (src/config.py lines 30-33, 43). -/
def testConfig : Config := {}

/-- An exchange environment in which every order placement succeeds. -/
def testEnv : ExchangeEnv :=
  { balance := 10000, market_order := some { id := some "order-1" },
    sl_order := some { id := some "order-2" },
    tp_order := some { id := some "order-3" } }

/-- An exchange environment whose market-order placement fails. -/
def testFailEnv : ExchangeEnv :=
  { balance := 10000, market_order := none, sl_order := none, tp_order := none }

/-- The position record opened by a successful buy at price 100 with
`testConfig` and `testEnv` on a one-pair configuration. -/
def testPosition : Position :=
  { type := "long", entry_price := 100, size := 10, entry_time := 0,
    order_id := some "order-1", stop_loss := 98, take_profit := 104 }

/-- A pair state holding `testPosition`. -/
def testLongState : PairState :=
  { position := some testPosition, stop_loss_order := some "order-2",
    take_profit_order := some "order-3" }

/-- A cycle whose signal is BUY with the all-success exchange environment. -/
def testBuyCycle : CycleInput :=
  { signal := Signal.BUY, env := testEnv, now := 0, price := 100,
    symbols := ["BTC/USDT"], all_positions := [none] }

/-- C3: for every candle series with fewer than `max(ema_slow, rsi_period) + 1`
rows and every position state, `generate_signal` returns HOLD with reason
"insufficient_data"; the guard precedes every indicator computation in the
definition, whose else-branch is never entered here. -/
theorem generate_signal_insufficient_data_hold (s : PriceActionStrategy)
    (closes : List ℚ) (position : Option String)
    (h : closes.length < max s.ema_slow s.rsi_period + 1) :
    generate_signal s closes position =
      (Signal.HOLD, { reason := "insufficient_data" }) := by
  unfold generate_signal
  rw [if_pos h]

/-- C4: for all positive inputs `calculate_position_size` returns
`min(balance*risk_per_trade/stop_loss_percent, balance*max_position_size) /
current_price`, and on balance 10000, risk 1%, stop loss 2%, max position 10%,
price 95000 it returns `1000/95000`. -/
theorem calculate_position_size_formula :
    (∀ balance risk_per_trade stop_loss_percent max_position_size current_price : ℚ,
      0 < balance → 0 < risk_per_trade → 0 < stop_loss_percent →
      0 < max_position_size → 0 < current_price →
      calculate_position_size balance risk_per_trade stop_loss_percent
          max_position_size current_price =
        min (balance * risk_per_trade / stop_loss_percent)
            (balance * max_position_size) / current_price) ∧
    calculate_position_size 10000 (1 / 100) (2 / 100) (1 / 10) 95000 =
      1000 / 95000 := by
  constructor
  · intro _ _ _ _ _ _ _ _ _ _
    rfl
  · norm_num [calculate_position_size, min_def]

/-- C8: the quantity returned by `calculate_position_size` is monotonically
increasing in the balance and the risk fraction, monotonically decreasing in
the stop-loss fraction and the price, and its notional `quantity * price`
never exceeds `balance * max_position_size`. -/
theorem calculate_position_size_monotone_bounded
    (b b' r r' sl sl' m p p' : ℚ)
    (hb : 0 < b) (hbb : b ≤ b') (hr : 0 < r) (hrr : r ≤ r')
    (hsl : 0 < sl) (hslsl : sl ≤ sl') (hm : 0 < m) (hp : 0 < p) (hpp : p ≤ p') :
    calculate_position_size b r sl m p ≤ calculate_position_size b' r sl m p ∧
    calculate_position_size b r sl m p ≤ calculate_position_size b r' sl m p ∧
    calculate_position_size b r sl' m p ≤ calculate_position_size b r sl m p ∧
    calculate_position_size b r sl m p' ≤ calculate_position_size b r sl m p ∧
    calculate_position_size b r sl m p * p ≤ b * m := by
  simp only [calculate_position_size]
  refine ⟨?_, ?_, ?_, ?_, ?_⟩
  · gcongr
  · gcongr
  · gcongr
  · gcongr
  · rw [div_mul_cancel₀ _ hp.ne']
    exact min_le_right _ _

/-- C1: on a series long enough for the indicators and with no current
position, `generate_signal` returns BUY with reason
"bullish_crossover_confirmed" if and only if, at the latest index, the EMA
crossover-up flag holds, the RSI lies strictly between the oversold and
overbought thresholds, the absolute EMA-difference percentage exceeds 0.1, and
`close > ema_fast > ema_slow` strictly; when any of these fails the result is
HOLD. -/
theorem generate_signal_buy_iff (s : PriceActionStrategy) (closes : List ℚ)
    (h : max s.ema_slow s.rsi_period + 1 ≤ closes.length) :
    (((generate_signal s closes none).1 = Signal.BUY ∧
      (generate_signal s closes none).2.reason = "bullish_crossover_confirmed") ↔
      (emaCrossUpAt s.ema_fast s.ema_slow closes (closes.length - 1) = true ∧
       optLtC (rsiAt s.rsi_period closes (closes.length - 1)) s.rsi_overbought = true ∧
       optGtC (rsiAt s.rsi_period closes (closes.length - 1)) s.rsi_oversold = true ∧
       optAbsGtC (emaDiffAt s.ema_fast s.ema_slow closes (closes.length - 1)) (1 / 10) = true ∧
       optLtQ (emaAt s.ema_fast closes (closes.length - 1))
         (some ((closes[closes.length - 1]?).getD 0)) = true ∧
       optLtQ (emaAt s.ema_slow closes (closes.length - 1))
         (emaAt s.ema_fast closes (closes.length - 1)) = true)) ∧
    (¬ (emaCrossUpAt s.ema_fast s.ema_slow closes (closes.length - 1) = true ∧
       optLtC (rsiAt s.rsi_period closes (closes.length - 1)) s.rsi_overbought = true ∧
       optGtC (rsiAt s.rsi_period closes (closes.length - 1)) s.rsi_oversold = true ∧
       optAbsGtC (emaDiffAt s.ema_fast s.ema_slow closes (closes.length - 1)) (1 / 10) = true ∧
       optLtQ (emaAt s.ema_fast closes (closes.length - 1))
         (some ((closes[closes.length - 1]?).getD 0)) = true ∧
       optLtQ (emaAt s.ema_slow closes (closes.length - 1))
         (emaAt s.ema_fast closes (closes.length - 1)) = true) →
      (generate_signal s closes none).1 = Signal.HOLD) := by
  have hnot : ¬ closes.length < max s.ema_slow s.rsi_period + 1 := Nat.not_lt.mpr h
  unfold generate_signal
  rw [if_neg hnot]
  dsimp only
  split_ifs <;> simp_all

/-- C2: on a series long enough for the indicators and with a long position,
a bearish crossover at the latest index or an RSI above the overbought
threshold makes `generate_signal` return SELL with reason "exit_long_signal",
and with a long position the result is never BUY, whatever the entry
conditions evaluate to. -/
theorem generate_signal_long_exit (s : PriceActionStrategy) (closes : List ℚ)
    (h : max s.ema_slow s.rsi_period + 1 ≤ closes.length) :
    ((emaCrossDownAt s.ema_fast s.ema_slow closes (closes.length - 1) = true ∨
      optGtC (rsiAt s.rsi_period closes (closes.length - 1)) s.rsi_overbought = true) →
      (generate_signal s closes (some "long")).1 = Signal.SELL ∧
      (generate_signal s closes (some "long")).2.reason = "exit_long_signal") ∧
    (generate_signal s closes (some "long")).1 ≠ Signal.BUY := by
  have hnot : ¬ closes.length < max s.ema_slow s.rsi_period + 1 := Nat.not_lt.mpr h
  constructor
  · intro hc
    rcases hc with hc | hc <;> simp [generate_signal, hnot, hc]
  · unfold generate_signal
    rw [if_neg hnot]
    dsimp only
    split_ifs <;> simp_all

/-- Witness for C3 at a concrete three-candle series. -/
theorem generate_signal_insufficient_data_hold_witness :
    ([10, 9, 8] : List ℚ).length <
      max testStrategy.ema_slow testStrategy.rsi_period + 1 ∧
    generate_signal testStrategy [10, 9, 8] (some "long") =
      (Signal.HOLD, { reason := "insufficient_data" }) :=
  ⟨by norm_num [testStrategy],
   generate_signal_insufficient_data_hold testStrategy [10, 9, 8] (some "long")
     (by norm_num [testStrategy])⟩

/-- Witness for C4 at the concrete inputs of end-to-end scenario 1. -/
theorem calculate_position_size_formula_witness :
    (0 : ℚ) < 10000 ∧ (0 : ℚ) < 1 / 100 ∧ (0 : ℚ) < 2 / 100 ∧
    (0 : ℚ) < 1 / 10 ∧ (0 : ℚ) < 95000 ∧
    calculate_position_size 10000 (1 / 100) (2 / 100) (1 / 10) 95000 =
      min (10000 * (1 / 100) / (2 / 100)) (10000 * (1 / 10)) / 95000 :=
  ⟨by norm_num, by norm_num, by norm_num, by norm_num, by norm_num,
   calculate_position_size_formula.1 10000 (1 / 100) (2 / 100) (1 / 10) 95000
     (by norm_num) (by norm_num) (by norm_num) (by norm_num) (by norm_num)⟩

/-- Witness for C8 at concrete positive inputs. -/
theorem calculate_position_size_monotone_bounded_witness :
    (0 : ℚ) < 100 ∧ (100 : ℚ) ≤ 200 ∧ (0 : ℚ) < 1 / 100 ∧ (1 / 100 : ℚ) ≤ 2 / 100 ∧
    (0 : ℚ) < 1 / 50 ∧ (1 / 50 : ℚ) ≤ 1 / 25 ∧ (0 : ℚ) < 1 / 10 ∧
    (0 : ℚ) < 50 ∧ (50 : ℚ) ≤ 100 ∧
    (calculate_position_size 100 (1 / 100) (1 / 50) (1 / 10) 50 ≤
       calculate_position_size 200 (1 / 100) (1 / 50) (1 / 10) 50 ∧
     calculate_position_size 100 (1 / 100) (1 / 50) (1 / 10) 50 ≤
       calculate_position_size 100 (2 / 100) (1 / 50) (1 / 10) 50 ∧
     calculate_position_size 100 (1 / 100) (1 / 25) (1 / 10) 50 ≤
       calculate_position_size 100 (1 / 100) (1 / 50) (1 / 10) 50 ∧
     calculate_position_size 100 (1 / 100) (1 / 50) (1 / 10) 100 ≤
       calculate_position_size 100 (1 / 100) (1 / 50) (1 / 10) 50 ∧
     calculate_position_size 100 (1 / 100) (1 / 50) (1 / 10) 50 * 50 ≤ 100 * (1 / 10)) :=
  ⟨by norm_num, by norm_num, by norm_num, by norm_num, by norm_num, by norm_num,
   by norm_num, by norm_num, by norm_num,
   calculate_position_size_monotone_bounded 100 200 (1 / 100) (2 / 100) (1 / 50)
     (1 / 25) (1 / 10) 50 100 (by norm_num) (by norm_num) (by norm_num)
     (by norm_num) (by norm_num) (by norm_num) (by norm_num) (by norm_num)
     (by norm_num)⟩

/-- Witness for C1 on a concrete five-candle series that triggers a BUY. -/
theorem generate_signal_buy_iff_witness :
    max testStrategy.ema_slow testStrategy.rsi_period + 1 ≤
      ([10, 9, 8, 9, 10] : List ℚ).length ∧
    ((((generate_signal testStrategy [10, 9, 8, 9, 10] none).1 = Signal.BUY ∧
      (generate_signal testStrategy [10, 9, 8, 9, 10] none).2.reason =
        "bullish_crossover_confirmed") ↔
      (emaCrossUpAt testStrategy.ema_fast testStrategy.ema_slow [10, 9, 8, 9, 10]
         (([10, 9, 8, 9, 10] : List ℚ).length - 1) = true ∧
       optLtC (rsiAt testStrategy.rsi_period [10, 9, 8, 9, 10]
         (([10, 9, 8, 9, 10] : List ℚ).length - 1)) testStrategy.rsi_overbought = true ∧
       optGtC (rsiAt testStrategy.rsi_period [10, 9, 8, 9, 10]
         (([10, 9, 8, 9, 10] : List ℚ).length - 1)) testStrategy.rsi_oversold = true ∧
       optAbsGtC (emaDiffAt testStrategy.ema_fast testStrategy.ema_slow [10, 9, 8, 9, 10]
         (([10, 9, 8, 9, 10] : List ℚ).length - 1)) (1 / 10) = true ∧
       optLtQ (emaAt testStrategy.ema_fast [10, 9, 8, 9, 10]
           (([10, 9, 8, 9, 10] : List ℚ).length - 1))
         (some ((([10, 9, 8, 9, 10] : List ℚ)[([10, 9, 8, 9, 10] : List ℚ).length - 1]?).getD 0)) = true ∧
       optLtQ (emaAt testStrategy.ema_slow [10, 9, 8, 9, 10]
           (([10, 9, 8, 9, 10] : List ℚ).length - 1))
         (emaAt testStrategy.ema_fast [10, 9, 8, 9, 10]
           (([10, 9, 8, 9, 10] : List ℚ).length - 1)) = true)) ∧
    (¬ (emaCrossUpAt testStrategy.ema_fast testStrategy.ema_slow [10, 9, 8, 9, 10]
         (([10, 9, 8, 9, 10] : List ℚ).length - 1) = true ∧
       optLtC (rsiAt testStrategy.rsi_period [10, 9, 8, 9, 10]
         (([10, 9, 8, 9, 10] : List ℚ).length - 1)) testStrategy.rsi_overbought = true ∧
       optGtC (rsiAt testStrategy.rsi_period [10, 9, 8, 9, 10]
         (([10, 9, 8, 9, 10] : List ℚ).length - 1)) testStrategy.rsi_oversold = true ∧
       optAbsGtC (emaDiffAt testStrategy.ema_fast testStrategy.ema_slow [10, 9, 8, 9, 10]
         (([10, 9, 8, 9, 10] : List ℚ).length - 1)) (1 / 10) = true ∧
       optLtQ (emaAt testStrategy.ema_fast [10, 9, 8, 9, 10]
           (([10, 9, 8, 9, 10] : List ℚ).length - 1))
         (some ((([10, 9, 8, 9, 10] : List ℚ)[([10, 9, 8, 9, 10] : List ℚ).length - 1]?).getD 0)) = true ∧
       optLtQ (emaAt testStrategy.ema_slow [10, 9, 8, 9, 10]
           (([10, 9, 8, 9, 10] : List ℚ).length - 1))
         (emaAt testStrategy.ema_fast [10, 9, 8, 9, 10]
           (([10, 9, 8, 9, 10] : List ℚ).length - 1)) = true) →
      (generate_signal testStrategy [10, 9, 8, 9, 10] none).1 = Signal.HOLD)) :=
  ⟨by norm_num [testStrategy],
   generate_signal_buy_iff testStrategy [10, 9, 8, 9, 10] (by norm_num [testStrategy])⟩

/-- Witness for C2 on a concrete rising series whose RSI is 100. -/
theorem generate_signal_long_exit_witness :
    max testStrategy.ema_slow testStrategy.rsi_period + 1 ≤
      ([1, 2, 3, 4] : List ℚ).length ∧
    (emaCrossDownAt testStrategy.ema_fast testStrategy.ema_slow [1, 2, 3, 4]
       (([1, 2, 3, 4] : List ℚ).length - 1) = true ∨
     optGtC (rsiAt testStrategy.rsi_period [1, 2, 3, 4]
       (([1, 2, 3, 4] : List ℚ).length - 1)) testStrategy.rsi_overbought = true) ∧
    ((generate_signal testStrategy [1, 2, 3, 4] (some "long")).1 = Signal.SELL ∧
     (generate_signal testStrategy [1, 2, 3, 4] (some "long")).2.reason =
       "exit_long_signal") ∧
    (generate_signal testStrategy [1, 2, 3, 4] (some "long")).1 ≠ Signal.BUY :=
  have hrsi : optGtC (rsiAt testStrategy.rsi_period [1, 2, 3, 4]
      (([1, 2, 3, 4] : List ℚ).length - 1)) testStrategy.rsi_overbought = true := by
    norm_num [testStrategy, optGtC, optLtQ, rsiAt, wilderAvg, closeGains,
      closeLosses, closeDiffs]
  ⟨by norm_num [testStrategy], Or.inr hrsi,
   (generate_signal_long_exit testStrategy [1, 2, 3, 4]
      (by norm_num [testStrategy])).1 (Or.inr hrsi),
   (generate_signal_long_exit testStrategy [1, 2, 3, 4]
      (by norm_num [testStrategy])).2⟩

/-- C5: with a long position and a HOLD signal, the risk-management check
fires the full sell path (position cleared, realized pnl
`(exit - entry) * size`) whenever the price is at or below the recorded stop
loss or at or above the recorded take profit, provided the market sell order
succeeds; strictly between the two levels the pair state is unchanged. -/
theorem hold_breach_fires_sell (cfg : Config) (symbols : List String)
    (ap : List (Option Position)) (env : ExchangeEnv) (now : ℕ) (price : ℚ)
    (st : PairState) (pos : Position) (o : OrderResult)
    (hpos : st.position = some pos) (ho : env.market_order = some o) :
    ((price ≤ pos.stop_loss ∨ pos.take_profit ≤ price) →
      execute_signal cfg symbols ap env now price Signal.HOLD st =
        ({ position := none, stop_loss_order := none, take_profit_order := none },
         some { pnl := (price - pos.entry_price) * pos.size,
                pnl_percent := (price - pos.entry_price) / pos.entry_price * 100 })) ∧
    (pos.stop_loss < price → price < pos.take_profit →
      execute_signal cfg symbols ap env now price Signal.HOLD st = (st, none)) := by
  have hdisp : execute_signal cfg symbols ap env now price Signal.HOLD st =
      check_risk_management cfg env price st := by
    unfold execute_signal
    simp
  have hsell : execute_sell cfg env price st =
      ({ position := none, stop_loss_order := none, take_profit_order := none },
       some { pnl := (price - pos.entry_price) * pos.size,
              pnl_percent := (price - pos.entry_price) / pos.entry_price * 100 }) := by
    simp [execute_sell, hpos, ho]
  constructor
  · intro hbr
    rw [hdisp]
    unfold check_risk_management
    rw [hpos]
    dsimp only
    rcases hbr with hsl | htp
    · rw [if_pos hsl]
      exact hsell
    · by_cases hsl : price ≤ pos.stop_loss
      · rw [if_pos hsl]
        exact hsell
      · rw [if_neg hsl, if_pos htp]
        exact hsell
  · intro h1 h2
    rw [hdisp]
    unfold check_risk_management
    rw [hpos]
    dsimp only
    rw [if_neg (not_le.mpr h1), if_neg (not_le.mpr h2)]

/-- C6: when the market order placement fails (returns no result), the buy
path returns the pair state unchanged (no position record is created) and the
sell path returns the pair state unchanged (the existing position is kept);
each path places the order exactly once, so no retry occurs. -/
theorem order_failure_preserves_position (cfg : Config) (symbols : List String)
    (ap : List (Option Position)) (env : ExchangeEnv) (now : ℕ) (price : ℚ)
    (st : PairState) (h : env.market_order = none) :
    execute_buy cfg symbols ap env now price st = st ∧
    execute_sell cfg env price st = (st, none) := by
  constructor
  · unfold execute_buy
    dsimp only
    split_ifs <;> simp [h]
  · unfold execute_sell
    cases hp : st.position <;> simp [h]

/-- Dispatch lemma: a BUY signal is a no-op whenever the pair already holds a
position, because the buy guard requires the position to be null. -/
theorem execute_signal_buy_while_long (cfg : Config) (symbols : List String)
    (ap : List (Option Position)) (env : ExchangeEnv) (now : ℕ) (price : ℚ)
    (st : PairState) (pos : Position) (h : st.position = some pos) :
    execute_signal cfg symbols ap env now price Signal.BUY st = (st, none) := by
  unfold execute_signal
  simp [h]

/-- C7: at most one position per pair: after a BUY cycle that leaves the pair
long, a second BUY cycle with no intervening SELL is a no-op, returning the
state unchanged and opening no second position. -/
theorem second_buy_is_noop (cfg : Config) (symbols : List String)
    (ap1 ap2 : List (Option Position)) (env1 env2 : ExchangeEnv)
    (now1 now2 : ℕ) (price1 price2 : ℚ) (st : PairState) (pos : Position)
    (h : (execute_signal cfg symbols ap1 env1 now1 price1 Signal.BUY st).1.position =
      some pos) :
    execute_signal cfg symbols ap2 env2 now2 price2 Signal.BUY
        (execute_signal cfg symbols ap1 env1 now1 price1 Signal.BUY st).1 =
      ((execute_signal cfg symbols ap1 env1 now1 price1 Signal.BUY st).1, none) :=
  execute_signal_buy_while_long cfg symbols ap2 env2 now2 price2 _ pos h

/-- C9: whenever the buy path opens a position, the balance passed to the
position sizer is the fetched balance divided by the number of configured
pairs `len(symbols)`, and the result of the buy path does not depend on the
positions map at all, hence not on how many pairs currently hold a
position. -/
theorem buy_sizes_with_total_pair_count (cfg : Config) (symbols : List String)
    (ap : List (Option Position)) (env : ExchangeEnv) (now : ℕ) (price : ℚ)
    (st : PairState) (o : OrderResult)
    (hb : 0 < env.balance) (ho : env.market_order = some o)
    (hs : 0 < roundTo6 (calculate_position_size (env.balance / (symbols.length : ℚ))
      cfg.RISK_PER_TRADE cfg.STOP_LOSS_PERCENT cfg.MAX_POSITION_SIZE price)) :
    (execute_buy cfg symbols ap env now price st).position =
      some { type := "long", entry_price := price,
             size := roundTo6 (calculate_position_size
               (env.balance / (symbols.length : ℚ)) cfg.RISK_PER_TRADE
               cfg.STOP_LOSS_PERCENT cfg.MAX_POSITION_SIZE price),
             entry_time := now, order_id := o.id,
             stop_loss := price * (1 - cfg.STOP_LOSS_PERCENT),
             take_profit := price * (1 + cfg.TAKE_PROFIT_PERCENT) } ∧
    ∀ ap' : List (Option Position),
      execute_buy cfg symbols ap' env now price st =
        execute_buy cfg symbols ap env now price st := by
  constructor
  · unfold execute_buy
    dsimp only
    rw [if_neg (not_le.mpr hb), if_neg (not_le.mpr hs), ho]
    dsimp only
    simp [calculate_stop_loss_take_profit]
  · intro ap'
    rfl

/-- Preservation lemma: the buy path only creates positions whose stop loss
is strictly below and take profit strictly above the positive entry price. -/
theorem posInv_execute_buy (cfg : Config) (symbols : List String)
    (ap : List (Option Position)) (env : ExchangeEnv) (now : ℕ) (price : ℚ)
    (st : PairState) (hsl : 0 < cfg.STOP_LOSS_PERCENT)
    (htp : 0 < cfg.TAKE_PROFIT_PERCENT) (hprice : 0 < price)
    (hinv : PosInv st) :
    PosInv (execute_buy cfg symbols ap env now price st) := by
  unfold execute_buy
  dsimp only
  split_ifs
  · exact hinv
  · exact hinv
  · cases henv : env.market_order with
    | none => exact hinv
    | some o =>
      intro pos hpos
      simp [calculate_stop_loss_take_profit] at hpos
      subst hpos
      constructor
      · dsimp only
        nlinarith [mul_pos hprice hsl]
      · dsimp only
        nlinarith [mul_pos hprice htp]

/-- Preservation lemma: the sell path only clears positions. -/
theorem posInv_execute_sell (cfg : Config) (env : ExchangeEnv) (price : ℚ)
    (st : PairState) (hinv : PosInv st) :
    PosInv (execute_sell cfg env price st).1 := by
  unfold execute_sell
  cases hp : st.position with
  | none => exact hinv
  | some pos =>
    dsimp only
    cases ho : env.market_order with
    | none => exact hinv
    | some o =>
      intro q hq
      exact Option.noConfusion hq

/-- Preservation lemma: the risk-management check only clears positions. -/
theorem posInv_check_risk (cfg : Config) (env : ExchangeEnv) (price : ℚ)
    (st : PairState) (hinv : PosInv st) :
    PosInv (check_risk_management cfg env price st).1 := by
  unfold check_risk_management
  cases hp : st.position with
  | none => exact hinv
  | some pos =>
    dsimp only
    split_ifs
    · exact posInv_execute_sell cfg env price st hinv
    · exact posInv_execute_sell cfg env price st hinv
    · exact hinv

/-- Preservation lemma: one signal-dispatch step preserves the stop-loss /
take-profit ordering invariant. -/
theorem posInv_execute_signal (cfg : Config) (symbols : List String)
    (ap : List (Option Position)) (env : ExchangeEnv) (now : ℕ) (price : ℚ)
    (sig : Signal) (st : PairState) (hsl : 0 < cfg.STOP_LOSS_PERCENT)
    (htp : 0 < cfg.TAKE_PROFIT_PERCENT) (hprice : 0 < price)
    (hinv : PosInv st) :
    PosInv (execute_signal cfg symbols ap env now price sig st).1 := by
  unfold execute_signal
  split_ifs
  · exact posInv_execute_buy cfg symbols ap env now price st hsl htp hprice hinv
  · exact posInv_execute_sell cfg env price st hinv
  · exact posInv_check_risk cfg env price st hinv
  · exact hinv

/-- Preservation lemma: any sequence of cycles with positive prices preserves
the stop-loss / take-profit ordering invariant. -/
theorem posInv_runCycles (cfg : Config) (inputs : List CycleInput)
    (st : PairState) (hsl : 0 < cfg.STOP_LOSS_PERCENT)
    (htp : 0 < cfg.TAKE_PROFIT_PERCENT)
    (hp : ∀ c ∈ inputs, 0 < c.price) (hinv : PosInv st) :
    PosInv (runCycles cfg inputs st) := by
  induction inputs generalizing st with
  | nil => exact hinv
  | cons c cs ih =>
    exact ih
      (execute_signal cfg c.symbols c.all_positions c.env c.now c.price c.signal st).1
      (fun d hd => hp d (List.mem_cons_of_mem _ hd))
      (posInv_execute_signal cfg c.symbols c.all_positions c.env c.now c.price
        c.signal st hsl htp (hp c (List.mem_cons_self _ _)) hinv)

/-- C10: under a validated configuration (positive stop-loss fraction below
one, positive take-profit fraction) and positive prices, every position record
stored in any reachable state satisfies
`stop_loss < entry_price < take_profit`, since positions are only created by
the buy path with `stop_loss = entry*(1 - sl)` and
`take_profit = entry*(1 + tp)` and are otherwise only cleared. -/
theorem stored_position_sl_tp_invariant (cfg : Config) (inputs : List CycleInput)
    (hsl0 : 0 < cfg.STOP_LOSS_PERCENT) (hsl1 : cfg.STOP_LOSS_PERCENT < 1)
    (htp : 0 < cfg.TAKE_PROFIT_PERCENT)
    (hp : ∀ c ∈ inputs, 0 < c.price) :
    PosInv (runCycles cfg inputs PairState.initial) :=
  posInv_runCycles cfg inputs PairState.initial hsl0 htp hp
    (fun pos hpos => Option.noConfusion hpos)

/-- Witness for C5 at price 97 against a position with stop loss 98. -/
theorem hold_breach_fires_sell_witness :
    testLongState.position = some testPosition ∧
    testEnv.market_order = some { id := some "order-1" } ∧
    ((((97 : ℚ) ≤ testPosition.stop_loss ∨ testPosition.take_profit ≤ (97 : ℚ)) →
      execute_signal testConfig ["BTC/USDT"] [some testPosition] testEnv 1 97
          Signal.HOLD testLongState =
        ({ position := none, stop_loss_order := none, take_profit_order := none },
         some { pnl := ((97 : ℚ) - testPosition.entry_price) * testPosition.size,
                pnl_percent := ((97 : ℚ) - testPosition.entry_price) /
                  testPosition.entry_price * 100 })) ∧
    (testPosition.stop_loss < (97 : ℚ) → (97 : ℚ) < testPosition.take_profit →
      execute_signal testConfig ["BTC/USDT"] [some testPosition] testEnv 1 97
          Signal.HOLD testLongState = (testLongState, none))) :=
  ⟨rfl, rfl,
   hold_breach_fires_sell testConfig ["BTC/USDT"] [some testPosition] testEnv 1 97
     testLongState testPosition { id := some "order-1" } rfl rfl⟩

/-- Witness for C6 with a failing exchange environment and a long state. -/
theorem order_failure_preserves_position_witness :
    testFailEnv.market_order = none ∧
    (execute_buy testConfig ["BTC/USDT"] [some testPosition] testFailEnv 1 97
        testLongState = testLongState ∧
     execute_sell testConfig testFailEnv 97 testLongState = (testLongState, none)) :=
  ⟨rfl,
   order_failure_preserves_position testConfig ["BTC/USDT"] [some testPosition]
     testFailEnv 1 97 testLongState rfl⟩

/-- Witness for C7: a concrete successful BUY followed by a second BUY. -/
theorem second_buy_is_noop_witness :
    (execute_signal testConfig ["BTC/USDT"] [none] testEnv 0 100 Signal.BUY
      PairState.initial).1.position = some testPosition ∧
    execute_signal testConfig ["BTC/USDT"] [some testPosition] testEnv 1 101
        Signal.BUY
        (execute_signal testConfig ["BTC/USDT"] [none] testEnv 0 100 Signal.BUY
          PairState.initial).1 =
      ((execute_signal testConfig ["BTC/USDT"] [none] testEnv 0 100 Signal.BUY
        PairState.initial).1, none) :=
  have h : (execute_signal testConfig ["BTC/USDT"] [none] testEnv 0 100 Signal.BUY
      PairState.initial).1.position = some testPosition := by
    norm_num [execute_signal, execute_buy, PairState.initial, testConfig, testEnv,
      calculate_position_size, roundTo6, pyRoundHalfEven,
      calculate_stop_loss_take_profit, testPosition]
  ⟨h, second_buy_is_noop testConfig ["BTC/USDT"] [none] [some testPosition]
    testEnv testEnv 0 1 100 101 PairState.initial testPosition h⟩

/-- Witness for C9 with two configured pairs, one of which already holds a
position. -/
theorem buy_sizes_with_total_pair_count_witness :
    (0 : ℚ) < testEnv.balance ∧
    testEnv.market_order = some { id := some "order-1" } ∧
    0 < roundTo6 (calculate_position_size
      (testEnv.balance / ((["BTC/USDT", "ETH/USDT"] : List String).length : ℚ))
      testConfig.RISK_PER_TRADE testConfig.STOP_LOSS_PERCENT
      testConfig.MAX_POSITION_SIZE 100) ∧
    ((execute_buy testConfig ["BTC/USDT", "ETH/USDT"] [none, some testPosition]
        testEnv 0 100 PairState.initial).position =
      some { type := "long", entry_price := 100,
             size := roundTo6 (calculate_position_size
               (testEnv.balance /
                 ((["BTC/USDT", "ETH/USDT"] : List String).length : ℚ))
               testConfig.RISK_PER_TRADE testConfig.STOP_LOSS_PERCENT
               testConfig.MAX_POSITION_SIZE 100),
             entry_time := 0,
             order_id := ({ id := some "order-1" } : OrderResult).id,
             stop_loss := 100 * (1 - testConfig.STOP_LOSS_PERCENT),
             take_profit := 100 * (1 + testConfig.TAKE_PROFIT_PERCENT) } ∧
     ∀ ap' : List (Option Position),
       execute_buy testConfig ["BTC/USDT", "ETH/USDT"] ap' testEnv 0 100
           PairState.initial =
         execute_buy testConfig ["BTC/USDT", "ETH/USDT"]
           [none, some testPosition] testEnv 0 100 PairState.initial) :=
  ⟨by norm_num [testEnv], rfl,
   by norm_num [testEnv, testConfig, calculate_position_size, roundTo6,
     pyRoundHalfEven],
   buy_sizes_with_total_pair_count testConfig ["BTC/USDT", "ETH/USDT"]
     [none, some testPosition] testEnv 0 100 PairState.initial
     { id := some "order-1" } (by norm_num [testEnv]) rfl
     (by norm_num [testEnv, testConfig, calculate_position_size, roundTo6,
       pyRoundHalfEven])⟩

/-- Witness for C10 after one successful BUY cycle from the initial state. -/
theorem stored_position_sl_tp_invariant_witness :
    0 < testConfig.STOP_LOSS_PERCENT ∧ testConfig.STOP_LOSS_PERCENT < 1 ∧
    0 < testConfig.TAKE_PROFIT_PERCENT ∧
    (∀ c ∈ [testBuyCycle], 0 < c.price) ∧
    PosInv (runCycles testConfig [testBuyCycle] PairState.initial) :=
  ⟨by norm_num [testConfig], by norm_num [testConfig], by norm_num [testConfig],
   by
     intro c hc
     simp only [List.mem_singleton] at hc
     subst hc
     norm_num [testBuyCycle],
   stored_position_sl_tp_invariant testConfig [testBuyCycle]
     (by norm_num [testConfig]) (by norm_num [testConfig])
     (by norm_num [testConfig])
     (by
       intro c hc
       simp only [List.mem_singleton] at hc
       subst hc
       norm_num [testBuyCycle])⟩
